import Mathlib

/-!
Verification development for the Contexus conversation-observation pipeline
(content script, platform adapters, capture UI).

The TypeScript sources are shallowly embedded: DOM elements become an
inductive `Elem` whose fields record the results of the DOM queries the code
performs (`querySelector`, `querySelectorAll`, `matches`, `closest`,
`parentElement`, `textContent`); the mutable per-element `data-contexus-*`
attributes and the manager's `processedMessages` set become explicit state
(`NState` / `Store`) threaded through the handler functions; code that can
throw is embedded in `Except`.
-/

/-! ## JavaScript string primitives used by the adapters -/

/-- JS `String.prototype.trim` on a character list: drop whitespace from both
ends. -/
def trimChars (l : List Char) : List Char :=
  ((l.dropWhile Char.isWhitespace).reverse.dropWhile Char.isWhitespace).reverse

/-- JS `s.trim()` for a Lean `String`. -/
def jsTrim (s : String) : String :=
  String.mk (trimChars s.data)

/-- JS `x?.trim() || ''` applied to a nullable string (`textContent`). -/
def jsTrimOpt (o : Option String) : String :=
  match o with
  | none => ""
  | some s => jsTrim s

/-- Whether `sub` occurs as a contiguous subsequence of `l`. -/
def hasInfix (sub : List Char) : List Char → Bool
  | [] => sub.isEmpty
  | c :: cs => sub.isPrefixOf (c :: cs) || hasInfix sub cs

/-- JS `a.includes(b)` (substring test). -/
def jsIncludes (s sub : String) : Bool :=
  hasInfix sub.data s.data

/-- JS `s.replace(pat, '')` with a plain-string pattern: remove the first
occurrence of `pat` (an empty pattern matches at position 0). -/
def removeFirstChars (pat : List Char) : List Char → List Char
  | [] => []
  | c :: cs =>
      if pat.isPrefixOf (c :: cs) then (c :: cs).drop pat.length
      else c :: removeFirstChars pat cs

/-- JS `s.replace(pat, '')` on `String`s. -/
def jsRemoveFirst (s pat : String) : String :=
  if pat.data.isPrefixOf s.data then String.mk (s.data.drop pat.data.length)
  else String.mk (removeFirstChars pat.data s.data)

/-- JS `text.replace(/\s+/g, ' ')`: collapse each maximal whitespace run into
a single space.  The boolean records whether the previous character was part
of a whitespace run already rewritten. -/
def collapseWsGo : Bool → List Char → List Char
  | _, [] => []
  | inWs, c :: cs =>
      if c.isWhitespace then
        if inWs then collapseWsGo true cs
        else ' ' :: collapseWsGo true cs
      else c :: collapseWsGo false cs

/-- Whitespace collapsing, `/\s+/g` replaced with a single space. -/
def collapseWs (l : List Char) : List Char :=
  collapseWsGo false l

/-- The action-button labels stripped by `extractMessageText`, in the order
the regex alternation `(Copy|Copied|Edit|Delete)` tries them. -/
def actionWords : List (List Char) :=
  [String.data ("Copy"), String.data ("Copied"), String.data ("Edit"),
   String.data ("Delete")]

/-- JS `text.replace(/^(Copy|Copied|Edit|Delete)\s*/, '')`: the regex engine
tries the alternatives left to right at position 0 and, on a match, also
consumes the following whitespace. -/
def stripLeadingAction (l : List Char) : List Char :=
  match actionWords.find? (fun w => w.isPrefixOf l) with
  | some w => (l.drop w.length).dropWhile Char.isWhitespace
  | none => l

/-- Drop trailing whitespace from a character list. -/
def dropTrailingWs (l : List Char) : List Char :=
  (l.reverse.dropWhile Char.isWhitespace).reverse

/-- JS `text.replace(/\s*(Copy|Copied|Edit|Delete)\s*$/, '')`: the leftmost
match anchored at the end is `w1 ++ word ++ w2` with `w1`, `w2` whitespace,
so the rewrite strips trailing whitespace, one action word, and the
whitespace run before it (no occurrence leaves the string unchanged). -/
def stripTrailingAction (l : List Char) : List Char :=
  let t := dropTrailingWs l
  match actionWords.find? (fun w => w.isSuffixOf t) with
  | some w => dropTrailingWs (t.take (t.length - w.length))
  | none => l

/-! ## DOM element model

An `Elem` packages the results of every DOM query the pipeline performs on a
node.  `query`/`queryAll` model `querySelector`/`querySelectorAll` on the
subtree, `ematches` models `Element.matches`, `eclosest` models
`Element.closest`, `parentEl` models `parentElement`, and `textContent` is
the node's (nullable) text content.  Elements are immutable snapshots; the
mutable `data-contexus-*` attributes live in the explicit handler state. -/

inductive Elem : Type where
  | mk (id : Nat)
       (textContent : Option String)
       (query : String → Option Elem)
       (queryAll : String → List Elem)
       (ematches : String → Bool)
       (eclosest : String → Option Elem)
       (ancestors : List Elem) : Elem

def Elem.id : Elem → Nat
  | .mk i _ _ _ _ _ _ => i

def Elem.textContent : Elem → Option String
  | .mk _ t _ _ _ _ _ => t

def Elem.query : Elem → String → Option Elem
  | .mk _ _ q _ _ _ _ => q

def Elem.queryAll : Elem → String → List Elem
  | .mk _ _ _ qa _ _ _ => qa

def Elem.ematches : Elem → String → Bool
  | .mk _ _ _ _ m _ _ => m

def Elem.eclosest : Elem → String → Option Elem
  | .mk _ _ _ _ _ c _ => c

/-- The `parentElement` chain of the node, nearest ancestor first. -/
def Elem.ancestors : Elem → List Elem
  | .mk _ _ _ _ _ _ p => p

/-- A leaf element: no descendants, no ancestors, matching nothing. -/
def Elem.leaf (i : Nat) (tc : Option String) : Elem :=
  .mk i tc (fun _ => none) (fun _ => []) (fun _ => false) (fun _ => none) []

/-! ## Platform adapter data model (src/adapters/types.ts) -/

/-- `MessageSelectors` from src/adapters/types.ts. -/
structure MessageSelectors where
  container : String
  actionBar : Option String

/-- `PlatformSelectors` from src/adapters/types.ts. -/
structure PlatformSelectors where
  conversationContainer : String
  messageContainer : String
  userMessage : MessageSelectors
  assistantMessage : MessageSelectors
  messageContent : String
  actionBar : Option String
  loadingIndicator : Option String
  inputField : Option String

/-- `PlatformConfig` from src/adapters/types.ts.  The optional custom
predicates are arbitrary page-supplied code in TypeScript, so they are
embedded as `Except`-valued functions (they may throw). -/
structure PlatformConfig where
  hasStreamingResponse : Bool
  contentLoadDelay : Nat
  isDynamicContent : Bool
  isMessageComplete : Option (Elem → Except Unit Bool)
  extractMessageText : Option (Elem → Except Unit String)

/-- `PlatformAdapter` from src/adapters/types.ts. -/
structure PlatformAdapter where
  platform : String
  name : String
  urlPatterns : List String
  selectors : PlatformSelectors
  config : PlatformConfig

/-! Selector constants used inside custom adapter functions and in concrete
test elements. -/

def openaiLoadingProbeSel : String := "[class*=\"loading\"], [class*=\"thinking\"]"

def markdownSel : String := ".markdown"

def messageContentClassSel : String := "[class*=\"message-content\"]"

def whitespacePreWrapSel : String := ".whitespace-pre-wrap"

def geminiTurnSel : String := "[class*=\"conversation-turn\"]"

def geminiLoadingProbeSel : String := "[class*=\"loading\"], [class*=\"generating\"]"

def responseTextClassSel : String := "[class*=\"response-text\"]"

def claudeTurnSel : String := "[class*=\"chat-turn\"]"

def claudeLoadingProbeSel : String := "[class*=\"loading\"], [class*=\"typing\"]"

def proseSel : String := ".prose"

def renderedMarkdownSel : String := "[class*=\"renderedMarkdown\"]"

def genericMessageContainerSel : String :=
  "[class*=\"message\"], [class*=\"response\"], [class*=\"turn\"], [class*=\"chat-turn\"], .message, .group"

def genericMessageContentSel : String :=
  "[class*=\"content\"], [class*=\"text\"], [class*=\"message-content\"], .content, .prose, .markdown"

def genericLoadingSel : String :=
  "[class*=\"loading\"], [class*=\"thinking\"], [class*=\"typing\"], [class*=\"generating\"], mat-progress-spinner"

/-- Custom `isMessageComplete` of the OpenAI adapter (src/adapters/openai.ts). -/
def openaiIsComplete (element : Elem) : Except Unit Bool :=
  .ok (element.query openaiLoadingProbeSel).isNone

/-- Custom `extractMessageText` of the OpenAI adapter (src/adapters/openai.ts). -/
def openaiExtract (element : Elem) : Except Unit String :=
  let contentElement :=
    element.query markdownSel <|> element.query messageContentClassSel <|>
      element.query whitespacePreWrapSel
  .ok (jsTrimOpt (contentElement.bind Elem.textContent))

/-- `openaiAdapter` from src/adapters/openai.ts. -/
def openaiAdapter : PlatformAdapter where
  platform := "openai"
  name := "ChatGPT"
  urlPatterns := ["https://chat.openai.com/*", "https://chatgpt.com/*"]
  selectors :=
    { conversationContainer := "main, [class*=\"conversation\"], [class*=\"chat-history\"]"
      messageContainer := "[data-message-author-role], [class*=\"message\"], .group"
      userMessage :=
        { container := "[data-message-author-role=\"user\"], [class*=\"user\"], [class*=\"human\"]"
          actionBar := some "[class*=\"flex\"][class*=\"gap\"]:has(button)" }
      assistantMessage :=
        { container := "[data-message-author-role=\"assistant\"], [class*=\"assistant\"], [class*=\"bot\"]"
          actionBar := some "[class*=\"has-data-[state=open]:pointer-events-auto\"][class*=\"has-data-[state=open]:[mask-position:0_0]\"]:has(> button)" }
      messageContent := ".markdown, [class*=\"message-content\"], .whitespace-pre-wrap, .prose"
      actionBar := some "[class*=\"has-data-[state=open]:pointer-events-auto\"][class*=\"has-data-[state=open]:[mask-position:0_0]\"]:has(> button)"
      loadingIndicator := some "[class*=\"loading\"], [class*=\"thinking\"], [class*=\"generating\"], .text-token-text-secondary"
      inputField := none }
  config :=
    { hasStreamingResponse := true
      contentLoadDelay := 500
      isDynamicContent := true
      isMessageComplete := some openaiIsComplete
      extractMessageText := some openaiExtract }

/-- Custom `isMessageComplete` of the Gemini adapter (src/adapters/gemini.ts):
`element.closest('[class*="conversation-turn"]') || element`, then probe for a
loading indicator. -/
def geminiIsComplete (element : Elem) : Except Unit Bool :=
  let parent := (element.eclosest geminiTurnSel).getD element
  .ok (parent.query geminiLoadingProbeSel).isNone

/-- Custom `extractMessageText` of the Gemini adapter (src/adapters/gemini.ts). -/
def geminiExtract (element : Elem) : Except Unit String :=
  let contentElement :=
    element.query messageContentClassSel <|> element.query markdownSel <|>
      element.query responseTextClassSel
  .ok (jsTrimOpt (contentElement.bind Elem.textContent))

/-- `geminiAdapter` from src/adapters/gemini.ts. -/
def geminiAdapter : PlatformAdapter where
  platform := "gemini"
  name := "Google Gemini"
  urlPatterns := ["https://gemini.google.com/*", "https://bard.google.com/*"]
  selectors :=
    { conversationContainer := "main.chat-app, .chat-history-scroll-container, infinite-scroller.chat-history, [data-test-id=\"chat-history-container\"]"
      messageContainer := "[class*=\"message\"], [class*=\"conversation-turn\"], [class*=\"chat-turn\"], .response-container, .request-container"
      userMessage :=
        { container := "[class*=\"user\"], [data-role=\"user\"], .request-container, [class*=\"human\"]"
          actionBar := some "[class*=\"user-actions\"], [class*=\"request-actions\"]" }
      assistantMessage :=
        { container := "[class*=\"model\"], [data-role=\"model\"], [class*=\"assistant\"], .response-container, [class*=\"bot\"]"
          actionBar := some "[class*=\"action-toolbar\"], [class*=\"message-actions\"], .action-buttons, [class*=\"controls\"]" }
      messageContent := "[class*=\"message-content\"], .markdown, [class*=\"response-text\"], .response-text, .request-text"
      actionBar := some "[class*=\"action-toolbar\"], [class*=\"message-actions\"], .action-buttons, [class*=\"controls\"]"
      loadingIndicator := some "[class*=\"loading\"], [class*=\"thinking\"], [class*=\"generating\"], mat-progress-spinner"
      inputField := none }
  config :=
    { hasStreamingResponse := true
      contentLoadDelay := 300
      isDynamicContent := true
      isMessageComplete := some geminiIsComplete
      extractMessageText := some geminiExtract }

/-- Custom `isMessageComplete` of the Claude adapter (src/adapters/claude.ts). -/
def claudeIsComplete (element : Elem) : Except Unit Bool :=
  let parent := (element.eclosest claudeTurnSel).getD element
  .ok (parent.query claudeLoadingProbeSel).isNone

/-- Custom `extractMessageText` of the Claude adapter (src/adapters/claude.ts). -/
def claudeExtract (element : Elem) : Except Unit String :=
  let contentElement :=
    element.query messageContentClassSel <|> element.query proseSel <|>
      element.query renderedMarkdownSel
  .ok (jsTrimOpt (contentElement.bind Elem.textContent))

/-- `claudeAdapter` from src/adapters/claude.ts. -/
def claudeAdapter : PlatformAdapter where
  platform := "claude"
  name := "Claude"
  urlPatterns := ["https://claude.ai/*"]
  selectors :=
    { conversationContainer := "main, [class*=\"conversation\"], [class*=\"chat-container\"], [class*=\"chat-history\"], .grid"
      messageContainer := "[class*=\"message\"], [class*=\"chat-turn\"], [class*=\"conversation-turn\"], .group, [role=\"presentation\"]"
      userMessage :=
        { container := "[class*=\"user\"], [data-is-user=\"true\"], [class*=\"human\"], .human-message, .font-user-message"
          actionBar := some "[class*=\"flex\"]:has(button[data-testid*=\"edit\"])" }
      assistantMessage :=
        { container := "[class*=\"assistant\"], [data-is-user=\"false\"], [class*=\"bot\"], .assistant-message, [class*=\"grid-cols-1 grid gap-2.5\"]"
          actionBar := some "div:has(button[data-testid=\"action-bar-copy\"]), [class*=\"flex\"]:has(button[data-testid*=\"action-bar\"])" }
      messageContent := "[class*=\"message-content\"], .prose, [class*=\"renderedMarkdown\"], [class*=\"content\"], .markdown"
      actionBar := some "div:has(button[data-testid=\"action-bar-copy\"]), [class*=\"flex\"]:has(button[data-testid*=\"action-bar\"])"
      loadingIndicator := some "[class*=\"loading\"], [class*=\"thinking\"], [class*=\"typing\"], [class*=\"generating\"]"
      inputField := none }
  config :=
    { hasStreamingResponse := true
      contentLoadDelay := 400
      isDynamicContent := true
      isMessageComplete := some claudeIsComplete
      extractMessageText := some claudeExtract }

/-- Custom `extractMessageText` of the generic adapter (src/adapters/generic.ts):
`element.textContent?.trim() || ''`. -/
def genericExtract (element : Elem) : Except Unit String :=
  .ok (jsTrimOpt element.textContent)

/-- `genericAdapter` from src/adapters/generic.ts. -/
def genericAdapter : PlatformAdapter where
  platform := "other"
  name := "Other LLM Platform"
  urlPatterns := ["*"]
  selectors :=
    { conversationContainer := "main, [class*=\"conversation\"], [class*=\"chat\"], [class*=\"messages\"], .chat-app, .chat-history"
      messageContainer := genericMessageContainerSel
      userMessage :=
        { container := "[class*=\"user\"], [class*=\"human\"], [class*=\"question\"], .request-container, [data-role=\"user\"]"
          actionBar := some "[class*=\"user-actions\"], [class*=\"request-actions\"]" }
      assistantMessage :=
        { container := "[class*=\"assistant\"], [class*=\"ai\"], [class*=\"bot\"], [class*=\"response\"], .response-container, [data-role=\"assistant\"]"
          actionBar := some "[role=\"toolbar\"], [class*=\"actions\"], [class*=\"controls\"], footer, div:has(button[aria-label*=\"Copy\"])" }
      messageContent := genericMessageContentSel
      actionBar := some "[role=\"toolbar\"], [class*=\"actions\"], [class*=\"controls\"], footer, div:has(button[aria-label*=\"Copy\"])"
      loadingIndicator := some genericLoadingSel
      inputField := none }
  config :=
    { hasStreamingResponse := false
      contentLoadDelay := 200
      isDynamicContent := true
      isMessageComplete := none
      extractMessageText := some genericExtract }

/-! ## Adapter utilities (src/adapters/utils.ts) -/

/-- Registry of all platform adapters, in declaration order
(src/adapters/utils.ts `platformAdapters`). -/
def platformAdapters : List PlatformAdapter :=
  [openaiAdapter, geminiAdapter, claudeAdapter, genericAdapter]

def starPattern : String := "*"

def slashStarPattern : String := "/*"

/-- The per-pattern test inside `getCurrentAdapter`:
`pattern === '*' ? false : currentUrl.includes(pattern.replace('/*', '').replace('*', ''))`. -/
def patternMatchesUrl (currentUrl pattern : String) : Bool :=
  if pattern = starPattern then false
  else jsIncludes currentUrl (jsRemoveFirst (jsRemoveFirst pattern slashStarPattern) starPattern)

/-- `getCurrentAdapter` from src/adapters/utils.ts, with the ambient
`window.location.href` made an explicit argument: the first adapter whose
`urlPatterns` match wins (the generic `'*'` pattern is skipped in the first
pass), falling back to `genericAdapter`. -/
def getCurrentAdapter (currentUrl : String) : PlatformAdapter :=
  match platformAdapters.find?
      (fun adapter => adapter.urlPatterns.any (fun p => patternMatchesUrl currentUrl p)) with
  | some adapter => adapter
  | none => genericAdapter

/-- `extractMessageText` from src/adapters/utils.ts. -/
def extractMessageText (element : Elem) (adapter : PlatformAdapter) : Except Unit String :=
  match adapter.config.extractMessageText with
  | some f => f element
  | none =>
    match element.query adapter.selectors.messageContent with
    | none => .ok (jsTrimOpt element.textContent)
    | some contentElement =>
        let text := jsTrimOpt contentElement.textContent
        let text := String.mk (collapseWs text.data)
        let text := String.mk (stripLeadingAction text.data)
        let text := String.mk (stripTrailingAction text.data)
        .ok text

/-- `isMessageComplete` from src/adapters/utils.ts. -/
def isMessageComplete (element : Elem) (adapter : PlatformAdapter) : Except Unit Bool :=
  match adapter.config.isMessageComplete with
  | some f => f element
  | none =>
    if !adapter.config.hasStreamingResponse then .ok true
    else
      match adapter.selectors.loadingIndicator with
      | some sel =>
        match element.query sel with
        | some _ => .ok false
        | none =>
          match extractMessageText element adapter with
          | .error u => .error u
          | .ok text => .ok (!decide (text.length < 3))
      | none =>
        match extractMessageText element adapter with
        | .error u => .error u
        | .ok text => .ok (!decide (text.length < 3))

/-! ## Content manager state (src/content/index.ts, `ContentManager`)

The manager's mutable per-element facts — membership in the
`processedMessages` set, the `data-contexus-complete` and
`data-contexus-capture-ready` attributes, the presence of an inserted capture
button in the element's subtree, and the number of
`prepareMessageForCapture` invocations (each of which rebuilds the capture
snapshot stored on the element) — are collected in `NState`, and a `Store`
maps element identities to their `NState`.  The informational
`data-contexus-message` / `data-contexus-type` attributes, console logging
and the `contextus:conversation-update` event have no influence on any
transition and are not tracked. -/

structure NState where
  processed : Bool
  completeAttr : Option Bool
  captureReady : Bool
  buttonPresent : Bool
  prepareCount : Nat
deriving DecidableEq

/-- State of a freshly discovered element: not processed, no `data-contexus`
attributes, no button, no capture snapshot. -/
def NState.init : NState :=
  { processed := false, completeAttr := none, captureReady := false
    buttonPresent := false, prepareCount := 0 }

/-- Per-element-identity state table. -/
def Store : Type := Nat → NState

/-- Empty registry: every element is in its initial state. -/
def Store.empty : Store := fun _ => NState.init

/-- Update the state of one element identity. -/
def updAt (st : Store) (i : Nat) (s : NState) : Store :=
  fun j => if j = i then s else st j

/-- `ContentManager.isMessageElement`: `element.matches(messageContainer)`. -/
def isMessageElement (adapter : PlatformAdapter) (element : Elem) : Bool :=
  element.ematches adapter.selectors.messageContainer

/-- `ContentManager.isUserMessage`. -/
def isUserMessage (adapter : PlatformAdapter) (element : Elem) : Bool :=
  element.ematches adapter.selectors.userMessage.container

/-- `ContentManager.isAssistantMessage`. -/
def isAssistantMessage (adapter : PlatformAdapter) (element : Elem) : Bool :=
  element.ematches adapter.selectors.assistantMessage.container

/-- `ContentManager.getMessageContainer`. -/
def getMessageContainer (adapter : PlatformAdapter) (messageElement : Elem) : Option Elem :=
  if messageElement.ematches adapter.selectors.messageContainer then some messageElement
  else messageElement.eclosest adapter.selectors.messageContainer

inductive MType where
  | user
  | assistant
deriving DecidableEq

/-- `ContentManager.getActionBar`: user/assistant-specific action-bar
selectors first, then auto-detection from the container, then the generic
fallback selector. -/
def getActionBar (adapter : PlatformAdapter) (messageElement : Elem)
    (messageType : Option MType) : Option Elem :=
  match getMessageContainer adapter messageElement with
  | none => none
  | some container =>
    let tryUser : Option Elem :=
      if messageType = some MType.user then
        (adapter.selectors.userMessage.actionBar).bind container.query
      else none
    match tryUser with
    | some ab => some ab
    | none =>
      let tryAssistant : Option Elem :=
        if messageType = some MType.assistant then
          (adapter.selectors.assistantMessage.actionBar).bind container.query
        else none
      match tryAssistant with
      | some ab => some ab
      | none =>
        let tryAutoUser : Option Elem :=
          if messageType = none && isUserMessage adapter container then
            (adapter.selectors.userMessage.actionBar).bind container.query
          else none
        match tryAutoUser with
        | some ab => some ab
        | none =>
          let tryAutoAssistant : Option Elem :=
            if messageType = none && isAssistantMessage adapter container then
              (adapter.selectors.assistantMessage.actionBar).bind container.query
            else none
          match tryAutoAssistant with
          | some ab => some ab
          | none => (adapter.selectors.actionBar).bind container.query

/-- `ContentManager.renderCaptureButton` acting on one element's state: a
no-op when a capture button (Shadow-DOM host or regular) is already in the
subtree; otherwise the button is inserted next to the action bar when one is
found (both the Shadow-DOM and the regular rendering paths insert exactly
one button; their internal failures are caught and reported as `false`). -/
def renderCaptureButtonE (adapter : PlatformAdapter) (messageElement : Elem)
    (s : NState) : NState :=
  if s.buttonPresent then s
  else
    let messageType :=
      if isUserMessage adapter messageElement then some MType.user
      else if isAssistantMessage adapter messageElement then some MType.assistant
      else none
    match getActionBar adapter messageElement messageType with
    | none => s
    | some _ => { s with buttonPresent := true }

/-- `ContentManager.processMessage`: duplicate-processing guard on the
`processedMessages` set, extraction and completion evaluation (both before
any attribute write, and both able to throw — a throw is caught by the
surrounding `try`/`catch` and reported as `false` with the state unchanged),
attribute stamping, and `prepareMessageForCapture` when the message is
complete with more than 20 characters of text.  `prepareMessageForCapture`
sets `data-contexus-capture-ready` and (re)builds the element's capture
snapshot; it is counted in `prepareCount`. -/
def processMessageE (adapter : PlatformAdapter) (messageElement : Elem)
    (s : NState) : NState × Bool :=
  if s.processed then (s, true)
  else
    match extractMessageText messageElement adapter with
    | .error _ => (s, false)
    | .ok messageText =>
      match isMessageComplete messageElement adapter with
      | .error _ => (s, false)
      | .ok isComplete =>
        let s1 := { s with completeAttr := some isComplete, processed := true }
        if isComplete && decide (messageText.length > 20) then
          ({ s1 with captureReady := true, prepareCount := s1.prepareCount + 1 }, true)
        else (s1, true)

/-- `ContentManager.processNewMessage`: run `processMessage`, then render the
capture button when the element carries `data-contexus-capture-ready`. -/
def processNewMessageE (adapter : PlatformAdapter) (messageElement : Elem)
    (s : NState) : NState :=
  let r := processMessageE adapter messageElement s
  if r.2 then
    if r.1.captureReady then renderCaptureButtonE adapter messageElement r.1 else r.1
  else r.1

/-- `ContentManager.processExistingMessages`: the initial scan feeds every
element returned by `getAllMessages` (passed here as an explicit list)
through `processNewMessage`. -/
def processExistingMessages (adapter : PlatformAdapter) (existingMessages : List Elem)
    (st : Store) : Store :=
  existingMessages.foldl
    (fun st messageEl => updAt st messageEl.id (processNewMessageE adapter messageEl (st messageEl.id)))
    st

/-- `ContentManager.handleStreamingUpdate` (part of the mutation callback,
not wrapped in any `try`/`catch`): reads the previous
`data-contexus-complete` attribute, re-evaluates completion, stamps the new
attribute, and on an incomplete-to-complete transition prepares the message
and renders the button when its text exceeds 20 characters.  A throw from
`isMessageComplete` or `extractMessageText` escapes; the error value carries
the store as it stood at the throw. -/
def handleStreamingUpdateE (adapter : PlatformAdapter) (messageElement : Elem)
    (st : Store) : Except Store Store :=
  let s0 := st messageElement.id
  let wasComplete := s0.completeAttr == some true
  match isMessageComplete messageElement adapter with
  | .error _ => .error st
  | .ok isComplete =>
    let st1 := updAt st messageElement.id { s0 with completeAttr := some isComplete }
    if isComplete && !wasComplete then
      match extractMessageText messageElement adapter with
      | .error _ => .error st1
      | .ok messageText =>
        if decide (messageText.length > 20) then
          let s1 := st1 messageElement.id
          let s2 := { s1 with captureReady := true, prepareCount := s1.prepareCount + 1 }
          .ok (updAt st1 messageElement.id (renderCaptureButtonE adapter messageElement s2))
        else .ok st1
    else .ok st1

/-- `ContentManager.handleMessageUpdate` (attribute-mutation path, also not
wrapped): same completion-edge logic as `handleStreamingUpdate`, with
completion evaluated before the previous attribute is read. -/
def handleMessageUpdateE (adapter : PlatformAdapter) (messageElement : Elem)
    (st : Store) : Except Store Store :=
  match isMessageComplete messageElement adapter with
  | .error _ => .error st
  | .ok isComplete =>
    let s0 := st messageElement.id
    let wasComplete := s0.completeAttr == some true
    let st1 := updAt st messageElement.id { s0 with completeAttr := some isComplete }
    if isComplete && !wasComplete then
      match extractMessageText messageElement adapter with
      | .error _ => .error st1
      | .ok messageText =>
        if decide (messageText.length > 20) then
          let s1 := st1 messageElement.id
          let s2 := { s1 with captureReady := true, prepareCount := s1.prepareCount + 1 }
          .ok (updAt st1 messageElement.id (renderCaptureButtonE adapter messageElement s2))
        else .ok st1
    else .ok st1

/-- `ContentManager.findParentMessage`: starting from `node.parentElement`,
walk the parent chain until an element matching `messageContainer` is found
(the chain is the node's `ancestors` list, nearest first). -/
def findParentMessage (adapter : PlatformAdapter) (node : Elem) : Option Elem :=
  node.ancestors.find? (fun el => isMessageElement adapter el)

/-- A `MutationRecord` as consumed by `ContentManager.handleMutations`:
added nodes, a character-data change, or an attribute change (the observer's
`attributeFilter` determines which attribute mutations are delivered; the
handler does not re-inspect the attribute name). -/
inductive MutationRecord where
  | childList (addedNodes : List Elem)
  | characterData (target : Elem)
  | attrChange (target : Elem)

/-- The added-nodes part of `handleMutations`: the node itself when it is a
message element, then every `messageContainer` descendant, all through
`processNewMessage`. -/
def processAddedNode (adapter : PlatformAdapter) (node : Elem) (st : Store) : Store :=
  let st1 :=
    if isMessageElement adapter node then
      updAt st node.id (processNewMessageE adapter node (st node.id))
    else st
  (node.queryAll adapter.selectors.messageContainer).foldl
    (fun st messageEl =>
      if isMessageElement adapter messageEl then
        updAt st messageEl.id (processNewMessageE adapter messageEl (st messageEl.id))
      else st)
    st1

/-- One `MutationRecord` of `ContentManager.handleMutations`.  The added-node
path cannot throw (`processMessage` catches internally); the character-data
path runs `handleStreamingUpdate` when the adapter streams; the attribute
path runs `handleMessageUpdate`.  Throws from the latter two escape. -/
def handleMutationRec (adapter : PlatformAdapter) (m : MutationRecord)
    (st : Store) : Except Store Store :=
  match m with
  | .childList addedNodes =>
      .ok (addedNodes.foldl (fun st node => processAddedNode adapter node st) st)
  | .characterData target =>
      if adapter.config.hasStreamingResponse then
        match findParentMessage adapter target with
        | some messageElement => handleStreamingUpdateE adapter messageElement st
        | none => .ok st
      else .ok st
  | .attrChange target =>
      match findParentMessage adapter target with
      | some messageElement => handleMessageUpdateE adapter messageElement st
      | none => .ok st

/-- `ContentManager.handleMutations` over a mutation batch: records are
processed in order; an uncaught throw aborts the remaining records of the
batch and escapes from the `MutationObserver` callback (the constructor wraps
the callback in nothing). -/
def handleMutationsE (adapter : PlatformAdapter) :
    List MutationRecord → Store → Except Store Store
  | [], st => .ok st
  | m :: rest, st =>
    match handleMutationRec adapter m st with
    | .error st1 => .error st1
    | .ok st1 => handleMutationsE adapter rest st1

/-! ## Per-node event machine over observation snapshots

For temporal claims about one message node, the handlers are specialised to a
single element whose live DOM evolves between callbacks.  An `Obs` packages
what the handlers compute from the live node at one callback:
its `isMessageComplete` result, its extracted text length, and whether
`getActionBar` finds an action bar.  Each constructor of `NEvent` names the
handler a mutation event dispatches to.  The bodies below are the same
transitions as `processNewMessageE` / `handleStreamingUpdateE` /
`handleMessageUpdateE`, with the element-and-adapter evaluation replaced by
the observation (throws are not modelled here; the claims using this machine
concern non-throwing runs). -/

structure Obs where
  isComplete : Bool
  textLen : Nat
  actionBarFound : Bool
deriving DecidableEq

/-- `renderCaptureButton` restricted to one node, observation form. -/
def renderCaptureButtonN (o : Obs) (s : NState) : NState :=
  if s.buttonPresent then s
  else if o.actionBarFound then { s with buttonPresent := true } else s

/-- `ContentManager.handleStreamingUpdate`, observation form. -/
def handleStreamingUpdateN (o : Obs) (s : NState) : NState :=
  let wasComplete := s.completeAttr == some true
  let s1 := { s with completeAttr := some o.isComplete }
  if o.isComplete && !wasComplete then
    if decide (o.textLen > 20) then
      renderCaptureButtonN o
        { s1 with captureReady := true, prepareCount := s1.prepareCount + 1 }
    else s1
  else s1

/-- `ContentManager.handleMessageUpdate`, observation form. -/
def handleMessageUpdateN (o : Obs) (s : NState) : NState :=
  let wasComplete := s.completeAttr == some true
  let s1 := { s with completeAttr := some o.isComplete }
  if o.isComplete && !wasComplete then
    if decide (o.textLen > 20) then
      renderCaptureButtonN o
        { s1 with captureReady := true, prepareCount := s1.prepareCount + 1 }
    else s1
  else s1

/-- `ContentManager.processMessage`, observation form. -/
def processMessageN (o : Obs) (s : NState) : NState × Bool :=
  if s.processed then (s, true)
  else
    let s1 := { s with completeAttr := some o.isComplete, processed := true }
    if o.isComplete && decide (o.textLen > 20) then
      ({ s1 with captureReady := true, prepareCount := s1.prepareCount + 1 }, true)
    else (s1, true)

/-- `ContentManager.processNewMessage`, observation form. -/
def processNewMessageN (o : Obs) (s : NState) : NState :=
  let r := processMessageN o s
  if r.2 then
    if r.1.captureReady then renderCaptureButtonN o r.1 else r.1
  else r.1

/-- One mutation event on the tracked node, tagged with the handler the
`handleMutations` dispatch sends it to: re-discovery in a scan or as an
added node (`scan`), a character-data mutation under a streaming adapter
(`charData`), an attribute mutation (`attrMut`). -/
inductive NEvent where
  | scan (o : Obs)
  | charData (o : Obs)
  | attrMut (o : Obs)
deriving DecidableEq

def NEvent.obs : NEvent → Obs
  | .scan o => o
  | .charData o => o
  | .attrMut o => o

def nodeStep : NEvent → NState → NState
  | .scan o, s => processNewMessageN o s
  | .charData o, s => handleStreamingUpdateN o s
  | .attrMut o, s => handleMessageUpdateN o s

def nodeRun : List NEvent → NState → NState
  | [], s => s
  | e :: es, s => nodeRun es (nodeStep e s)

/-- `ContentScriptManager.handleStreamingUpdate` from the older manager in
src/content/index.ts (lines 229-241), observation form: it stamps
`data-contexus-complete` with the fresh completion value and only then
compares the attribute against `'true'`, so the guard reads the value it
just wrote. -/
def csmHandleStreamingUpdate (o : Obs) (s : NState) : NState :=
  let s1 := { s with completeAttr := some o.isComplete }
  if o.isComplete && !(s1.completeAttr == some true) then
    if decide (o.textLen > 20) then
      { s1 with captureReady := true, prepareCount := s1.prepareCount + 1 }
    else s1
  else s1

/-! ## Container search and retry (`ContentManager.setupObserver`) -/

/-- Controller state for `setupObserver`: the `isInitialized` flag
(`inited`), the number of "No conversation container found, retrying in
2s..." warnings logged, whether a 2000 ms retry timer is pending after the
current invocation, and whether the mutation observer is attached. -/
structure CtrlState where
  inited : Bool
  warnCount : Nat
  retryScheduled : Bool
  observing : Bool
deriving DecidableEq

/-- Controller state at script start. -/
def CtrlState.start : CtrlState :=
  { inited := false, warnCount := 0, retryScheduled := false, observing := false }

/-- One invocation of `ContentManager.setupObserver` (lines 108-170),
parameterised by whether `getConversationContainer` finds the container:
an early return when already initialised; otherwise either attach the
observer and set `isInitialized`, or log the warning and schedule
`setTimeout(() => this.setupObserver(), 2000)` — unconditionally, with no
attempt counter anywhere in the class. -/
def setupObserverStep (containerFound : Bool) (s : CtrlState) : CtrlState :=
  if s.inited then { s with retryScheduled := false }
  else if containerFound then
    { s with inited := true, observing := true, retryScheduled := false }
  else
    { s with warnCount := s.warnCount + 1, retryScheduled := true }

/-- `n` consecutive invocations of `setupObserver`, the `k`-th seeing the
container iff `found k`. -/
def runSetupAttempts (found : Nat → Bool) : Nat → CtrlState
  | 0 => CtrlState.start
  | n + 1 => setupObserverStep (found n) (runSetupAttempts found n)

/-- `ContentManager.handleNavigation` (lines 631-649): disconnect the
observer, drop Shadow-DOM instances, clear `isInitialized` and the
`processedMessages` registry, and schedule a delayed `setupObserver`. -/
def handleNavigationReset (s : CtrlState) (_st : Store) : CtrlState × Store :=
  ({ s with inited := false, observing := false, retryScheduled := true },
    fun _ => NState.init)

/-! ## Navigation signals (`ContentManager.setupNavigationListener`)

Each of the three navigation hooks — the patched `history.pushState`, the
patched `history.replaceState`, and the `popstate` listener (lines 608-626)
— reacts to its signal with `setTimeout(() => handleNavigation(), 100)`.
No hook stores or cancels a timer handle and `handleNavigation` keeps no
navigation counter, so every scheduled callback eventually fires and runs one
full reset. -/

/-- The timer queue built by a sequence of navigation signals at the given
times: each signal appends one 100 ms callback, none is ever cancelled. -/
def navTimerQueue (signalTimes : List Nat) : List Nat :=
  signalTimes.foldl (fun timers t => timers ++ [t + 100]) []

/-- Number of `handleNavigation` executions caused by the signals: every
queued timer fires. -/
def navResetCount (signalTimes : List Nat) : Nat :=
  (navTimerQueue signalTimes).length

/-! ## Capture-button activation (part_005 `ShadowCaptureButton.handleCapture`
and part_003 `CaptureButtonRenderer.createClickHandler`)

Both handlers run an `async` capture; the in-flight period is modelled by an
explicit `complete` event (the `finally` block).  `activate` is one
invocation of the click handler, tagged with whether the click was
pointer-initiated: CSS `pointer-events: none` suppresses pointer-initiated
clicks, but keyboard-initiated `click` events on a focused button and
programmatic `element.click()` are not pointer events and are still
delivered. -/

inductive ButtonEvent where
  | activate (viaPointer : Bool)
  | complete
deriving DecidableEq

/-- State of the Shadow-DOM button: the React `isLoading` flag (state updates
are taken as synchronous) and the number of `onCapture` calls. -/
structure ShadowButtonState where
  isLoading : Bool
  captureCalls : Nat
deriving DecidableEq

def ShadowButtonState.init : ShadowButtonState :=
  { isLoading := false, captureCalls := 0 }

/-- `ShadowCaptureButton.handleCapture`: `if (isLoading) return;` then
`setIsLoading(true)` and `await onCapture()`; the `finally` clears the flag
(and the button is also `disabled` while loading). -/
def shadowStep : ButtonEvent → ShadowButtonState → ShadowButtonState
  | .activate _, s =>
      if s.isLoading then s
      else { isLoading := true, captureCalls := s.captureCalls + 1 }
  | .complete, s => { s with isLoading := false }

def shadowRun : List ButtonEvent → ShadowButtonState → ShadowButtonState
  | [], s => s
  | e :: es, s => shadowRun es (shadowStep e s)

/-- State of the regular (direct-DOM fallback) button: whether
`button.style.pointerEvents = 'none'` is in force, and the number of
`onCapture` calls. -/
structure RegularButtonState where
  pointerEventsOff : Bool
  captureCalls : Nat
deriving DecidableEq

def RegularButtonState.init : RegularButtonState :=
  { pointerEventsOff := false, captureCalls := 0 }

/-- `CaptureButtonRenderer.createClickHandler`: the handler body has no
busy-flag check — once invoked it always runs `onCapture`, setting
`style.opacity` and `style.pointerEvents = 'none'` for the duration (the
`finally` restores them).  A pointer-initiated click is not delivered while
`pointer-events` is `none`; a non-pointer activation always is. -/
def regularStep : ButtonEvent → RegularButtonState → RegularButtonState
  | .activate viaPointer, s =>
      if viaPointer && s.pointerEventsOff then s
      else { pointerEventsOff := true, captureCalls := s.captureCalls + 1 }
  | .complete, s => { s with pointerEventsOff := false }

def regularRun : List ButtonEvent → RegularButtonState → RegularButtonState
  | [], s => s
  | e :: es, s => regularRun es (regularStep e s)

/-! ## Concrete fixtures and spec-side definitions used by the claims -/

/-- Spec-side pattern matching: a URL-substring rule matches when the rule
(with its glob suffix removed) is a substring of the URL, and the generic
catch-all `'*'` matches every URL ("generic is matched last"). -/
def specPatternMatches (currentUrl pattern : String) : Bool :=
  if pattern = starPattern then true
  else jsIncludes currentUrl (jsRemoveFirst (jsRemoveFirst pattern slashStarPattern) starPattern)

/-- Spec-side resolver, following the ProfileResolver contract word for word:
iterate the known profiles in declaration order, return the first whose URL
matchers match, and return the generic profile if none match.  To be compared
with `getCurrentAdapter`. -/
def resolveProfileSpec (currentUrl : String) : PlatformAdapter :=
  match platformAdapters.find?
      (fun adapter => adapter.urlPatterns.any (fun p => specPatternMatches currentUrl p)) with
  | some adapter => adapter
  | none => genericAdapter

/-- Default completion helper: whether no element matches the adapter's
loading-indicator selector inside the message subtree (vacuously true when
the adapter declares no indicator selector). -/
def loadingIndicatorAbsent (adapter : PlatformAdapter) (element : Elem) : Bool :=
  match adapter.selectors.loadingIndicator with
  | some sel => (element.query sel).isNone
  | none => true

/-- Observation of a message whose completion probe currently fails (for
example, a loading indicator is present again) with 30 characters of text. -/
def obsIncomplete30 : Obs := { isComplete := false, textLen := 30, actionBarFound := true }

/-- Observation of a completed message: 30 characters, judged complete. -/
def obsDone30 : Obs := { isComplete := true, textLen := 30, actionBarFound := true }

/-- Observation at the streaming callback that removes the loading
indicator: judged complete with 80 characters of text. -/
def obsStreamDone : Obs := { isComplete := true, textLen := 80, actionBarFound := true }

/-- Observation while the loading indicator is still present during
streaming: judged incomplete, 80 characters already extracted. -/
def obsStreamLoading : Obs := { isComplete := false, textLen := 80, actionBarFound := true }

/-- Registry state of a streaming message that was discovered while still
incomplete: processed, `data-contexus-complete="false"`, not capture-ready. -/
def streamingDiscovered : NState :=
  { processed := true, completeAttr := some false, captureReady := false
    buttonPresent := false, prepareCount := 0 }

/-- Registry state of a node that has gone through the capture handoff:
processed, complete, capture-ready, button rendered, one snapshot built. -/
def readyNState : NState :=
  { processed := true, completeAttr := some true, captureReady := true
    buttonPresent := true, prepareCount := 1 }

/-- A node state is stably capture-ready when the node is in the processed
set, carries `data-contexus-complete="true"`, and carries
`data-contexus-capture-ready="true"`. -/
def stableReady (s : NState) : Prop :=
  s.processed = true ∧ s.completeAttr = some true ∧ s.captureReady = true

/-- Text content of the element used in the completion scenarios. -/
def spinnerText : String := "Working on it, give me a second, this is a long answer"

/-- An element whose subtree contains a node matching the generic adapter's
loading-indicator selector. -/
def elemWithSpinner : Elem :=
  .mk 1 (some spinnerText)
    (fun s => if s = genericLoadingSel then some (Elem.leaf 2 none) else none)
    (fun _ => []) (fun _ => false) (fun _ => none) []

/-- A 50-character agent turn already present in the DOM at scan time. -/
def scanText : String := "The answer to your question is forty-two, really."

/-- The pre-existing message element for the initial-scan scenario: its
`textContent` is the 50-character turn, it matches the generic adapter's
message-container selector, and nothing else is in its subtree. -/
def scanElem : Elem :=
  .mk 5 (some scanText) (fun _ => none) (fun _ => [])
    (fun s => decide (s = genericMessageContainerSel)) (fun _ => none) []

/-- A custom extractor that throws on the malformed element (identity 13)
and otherwise behaves like the generic extractor.  It stands for any
page-supplied extraction code that can throw on one malformed node. -/
def throwingExtract (element : Elem) : Except Unit String :=
  if element.id = 13 then .error () else .ok (jsTrimOpt element.textContent)

/-- A streaming variant of the generic adapter whose custom extractor throws
on the malformed node; used to exercise the exception paths of
`handleMutations`. -/
def throwAdapter : PlatformAdapter :=
  { genericAdapter with
    config :=
      { genericAdapter.config with
        hasStreamingResponse := true
        extractMessageText := some throwingExtract } }

/-- The malformed message element (identity 13): extraction throws on it. -/
def badMsgElem : Elem :=
  .mk 13 (some "bad") (fun _ => none) (fun _ => [])
    (fun s => decide (s = genericMessageContainerSel)) (fun _ => none) []

/-- A text node inside the malformed message, the target of a character-data
mutation; its parent chain leads to `badMsgElem`. -/
def charTarget : Elem :=
  .mk 14 (some "x") (fun _ => none) (fun _ => []) (fun _ => false)
    (fun _ => none) [badMsgElem]

/-- A healthy message element (identity 7) arriving in the same mutation
batch as the malformed one. -/
def goodElem : Elem :=
  .mk 7 (some "This is a good message with plenty of text in it.")
    (fun _ => none) (fun _ => [])
    (fun s => decide (s = genericMessageContainerSel)) (fun _ => none) []

/-- A mutation batch whose first record makes the streaming handler throw
and whose second record carries a healthy new message. -/
def c8BadBatch : List MutationRecord :=
  [MutationRecord.characterData charTarget, MutationRecord.childList [goodElem]]

/-- A batch consisting of one added healthy message. -/
def c8GoodBatch : List MutationRecord :=
  [MutationRecord.childList [goodElem]]

/-- Whether a mutation record is an added-nodes (`childList`) record. -/
def mutationIsChildList : MutationRecord → Bool
  | .childList _ => true
  | .characterData _ => false
  | .attrChange _ => false

/-- Whether a mutation batch ran to completion without an uncaught throw. -/
def exceptIsOk (r : Except Store Store) : Bool :=
  match r with
  | .ok _ => true
  | .error _ => false

/-- The store produced by a mutation batch, whether or not it threw (on a
throw, the store as it stood when the exception escaped). -/
def exceptStore (r : Except Store Store) : Store :=
  match r with
  | .ok st => st
  | .error st => st

/-- The generic adapter with no custom extractor, exposing the default
extraction path of `extractMessageText` (no registry adapter reaches it,
since all four ship custom extractors). -/
def plainAdapter : PlatformAdapter :=
  { genericAdapter with
    config := { genericAdapter.config with extractMessageText := none } }

/-- An element none of whose descendants match any selector, with raw
whitespace-padded text content. -/
def fallbackElem : Elem := Elem.leaf 3 (some "  two raw     words  ")

/-! ## Helper lemmas -/

theorem updAt_same (st : Store) (i : Nat) (s : NState) : updAt st i s i = s := by
  simp [updAt]

theorem updAt_other (st : Store) (i : Nat) (s : NState) (j : Nat) (h : j ≠ i) :
    updAt st i s j = st j := by
  simp [updAt, h]

theorem foldl_upd_notmem (g : Elem → NState → NState) (es : List Elem) :
    ∀ (st : Store) (i : Nat), (∀ e ∈ es, e.id ≠ i) →
      (es.foldl (fun st f => updAt st f.id (g f (st f.id))) st) i = st i := by
  induction es with
  | nil => intro st i _; rfl
  | cons f fs ih =>
      intro st i h
      simp only [List.foldl_cons]
      rw [ih _ i (fun e he => h e (List.mem_cons_of_mem f he))]
      exact updAt_other _ _ _ _ (fun hk => h f (List.mem_cons_self f fs) hk.symm)

theorem foldl_upd_mem (g : Elem → NState → NState) (es : List Elem) :
    ∀ (st : Store) (e : Elem), e ∈ es → es.Pairwise (fun x y => x.id ≠ y.id) →
      (es.foldl (fun st f => updAt st f.id (g f (st f.id))) st) e.id = g e (st e.id) := by
  induction es with
  | nil => intro st e he _; cases he
  | cons f fs ih =>
      intro st e he hpw
      rcases List.mem_cons.mp he with rfl | hmem
      · simp only [List.foldl_cons]
        rw [foldl_upd_notmem g fs _ _
            (fun x hx hxe => ((List.pairwise_cons.mp hpw).1 x hx) hxe.symm),
          updAt_same]
      · simp only [List.foldl_cons]
        have hne : e.id ≠ f.id := fun hh => ((List.pairwise_cons.mp hpw).1 e hmem) hh.symm
        rw [ih _ e hmem (List.pairwise_cons.mp hpw).2, updAt_other _ _ _ _ hne]

theorem isMessageComplete_nonStreaming (adapter : PlatformAdapter) (element : Elem)
    (hrule : adapter.config.isMessageComplete = none)
    (hstream : adapter.config.hasStreamingResponse = false) :
    isMessageComplete element adapter = .ok true := by
  unfold isMessageComplete
  rw [hrule, hstream]
  rfl

theorem renderCaptureButtonE_cases (adapter : PlatformAdapter) (e : Elem) (s : NState) :
    renderCaptureButtonE adapter e s = s
    ∨ renderCaptureButtonE adapter e s = { s with buttonPresent := true } := by
  simp only [renderCaptureButtonE]
  split
  · exact Or.inl rfl
  · split
    · exact Or.inl rfl
    · exact Or.inr rfl

theorem renderCaptureButtonE_fields (adapter : PlatformAdapter) (e : Elem) (s : NState) :
    (renderCaptureButtonE adapter e s).processed = s.processed
    ∧ (renderCaptureButtonE adapter e s).completeAttr = s.completeAttr
    ∧ (renderCaptureButtonE adapter e s).captureReady = s.captureReady
    ∧ (renderCaptureButtonE adapter e s).prepareCount = s.prepareCount := by
  rcases renderCaptureButtonE_cases adapter e s with h | h <;> rw [h] <;>
    exact ⟨rfl, rfl, rfl, rfl⟩

theorem renderCaptureButtonN_cases (o : Obs) (s : NState) :
    renderCaptureButtonN o s = s
    ∨ renderCaptureButtonN o s = { s with buttonPresent := true } := by
  simp only [renderCaptureButtonN]
  split
  · exact Or.inl rfl
  · split
    · exact Or.inr rfl
    · exact Or.inl rfl

theorem renderCaptureButtonN_fields (o : Obs) (s : NState) :
    (renderCaptureButtonN o s).processed = s.processed
    ∧ (renderCaptureButtonN o s).completeAttr = s.completeAttr
    ∧ (renderCaptureButtonN o s).captureReady = s.captureReady
    ∧ (renderCaptureButtonN o s).prepareCount = s.prepareCount := by
  rcases renderCaptureButtonN_cases o s with h | h <;> rw [h] <;>
    exact ⟨rfl, rfl, rfl, rfl⟩

/-! ## Claim theorems -/

/-- C2: for a streaming profile, a message whose loading indicator is removed
only after several character-data mutations must not become CaptureReady
while the indicator is present, and must become CaptureReady in the callback
that removes it (text length already over the threshold).  The newer
manager's `ContentManager.handleStreamingUpdate` satisfies this (first and
third conjuncts), but the older `ContentScriptManager.handleStreamingUpdate`
in src/content/index.ts stamps `data-contexus-complete` before comparing it
against `'true'`, so its guard is dead and the message never becomes
CaptureReady in that callback (second conjunct): the code contradicts its own
"If message just completed, prepare for capture" comment and its sibling
`handleMessageUpdate`. -/
theorem spec_c2_streaming_gate :
    (handleStreamingUpdateN obsStreamLoading streamingDiscovered).captureReady = false
    ∧ (csmHandleStreamingUpdate obsStreamDone streamingDiscovered).captureReady = false
    ∧ (handleStreamingUpdateN obsStreamDone streamingDiscovered).captureReady = true := by
  decide

theorem runSetupAttempts_never_found (n : Nat) :
    runSetupAttempts (fun _ => false) (n + 1)
      = { inited := false, warnCount := n + 1, retryScheduled := true, observing := false } := by
  induction n with
  | zero => rfl
  | succ k ih =>
      show setupObserverStep false (runSetupAttempts (fun _ => false) (k + 1)) = _
      rw [ih]
      rfl

/-- C3 counterexample: the claim asserts a retry budget — some bound `N` of
attempts after which `setupObserver` stops polling.  No such bound exists:
with the container never found, every invocation schedules another 2-second
retry. -/
theorem spec_c3_counterexample :
    ¬ ∃ N : Nat, ∀ n : Nat, N ≤ n →
        (runSetupAttempts (fun _ => false) (n + 1)).retryScheduled = false := by
  rintro ⟨N, h⟩
  have h1 := h N (Nat.le_refl N)
  rw [runSetupAttempts_never_found] at h1
  simp at h1

/-- C3 amended: when the conversation-container selector matches nothing,
`setupObserver` logs a "No conversation container found, retrying in 2s..."
warning and schedules another attempt on a fixed 2000 ms interval with no
retry counter and no terminal diagnostic: after any number of failed
attempts the controller is still uninitialised (awaiting the container,
never crashing) with one more retry pending and one warning per attempt. -/
theorem spec_c3_retries_forever (n : Nat) :
    (runSetupAttempts (fun _ => false) (n + 1)).inited = false
    ∧ (runSetupAttempts (fun _ => false) (n + 1)).retryScheduled = true
    ∧ (runSetupAttempts (fun _ => false) (n + 1)).warnCount = n + 1 := by
  rw [runSetupAttempts_never_found]
  exact ⟨rfl, rfl, rfl⟩

theorem navTimerQueue_go_length (l : List Nat) :
    ∀ acc : List Nat,
      (l.foldl (fun timers t => timers ++ [t + 100]) acc).length = acc.length + l.length := by
  induction l with
  | nil => intro acc; simp
  | cons t ts ih =>
      intro acc
      rw [List.foldl_cons, ih (acc ++ [t + 100])]
      simp only [List.length_append, List.length_cons, List.length_nil]
      omega

/-- C4 counterexample: two navigation signals 50 ms apart — inside the
claimed 100 ms debounce window — execute two `handleNavigation` resets, not
one: each signal schedules its own `setTimeout(..., 100)` and nothing cancels
the earlier one. -/
theorem spec_c4_counterexample :
    50 - 0 < 100 ∧ navResetCount [0, 50] = 2 := by
  exact ⟨by decide, by decide⟩

/-- C4 amended: navigation signals are not coalesced.  Every signal —
however closely spaced — schedules one uncancellable 100 ms
`handleNavigation` callback, so the number of executed resets equals the
number of signals; there is no debounce and no navigation counter
discarding stale callbacks. -/
theorem spec_c4_one_reset_per_signal (signalTimes : List Nat) :
    navResetCount signalTimes = signalTimes.length := by
  unfold navResetCount navTimerQueue
  rw [navTimerQueue_go_length]
  simp

theorem shadowRun_loading (evs : List ButtonEvent) :
    ∀ s : ShadowButtonState, s.isLoading = true →
      (∀ e ∈ evs, e ≠ ButtonEvent.complete) → shadowRun evs s = s := by
  induction evs with
  | nil => intro s _ _; rfl
  | cons e es ih =>
      intro s hl hn
      cases e with
      | activate b =>
          have hstep : shadowStep (ButtonEvent.activate b) s = s := by
            simp [shadowStep, hl]
          simp only [shadowRun, hstep]
          exact ih s hl (fun x hx => hn x (List.mem_cons_of_mem _ hx))
      | complete => exact absurd rfl (hn _ (List.mem_cons_self _ _))

theorem regularRun_pointerOff (evs : List ButtonEvent) :
    ∀ s : RegularButtonState, s.pointerEventsOff = true →
      (∀ e ∈ evs, e = ButtonEvent.activate true) → regularRun evs s = s := by
  induction evs with
  | nil => intro s _ _; rfl
  | cons e es ih =>
      intro s hp hn
      have he := hn e (List.mem_cons_self e es)
      subst he
      have hstep : regularStep (ButtonEvent.activate true) s = s := by
        simp [regularStep, hp]
      simp only [regularRun, hstep]
      exact ih s hp (fun x hx => hn x (List.mem_cons_of_mem _ hx))

/-- C9 counterexample: the direct-DOM fallback handler has no busy flag.
While a capture is in flight it only sets `pointer-events: none`, which does
not suppress keyboard or programmatic activations, so a pointer activation
followed by a non-pointer activation (before the capture completes) invokes
the capture handoff twice — the claim requires exactly one call per
completed capture in both strategies. -/
theorem spec_c9_counterexample :
    (regularRun [ButtonEvent.activate true, ButtonEvent.activate false]
        RegularButtonState.init).captureCalls = 2 := by
  decide

/-- C9 amended: the Shadow-DOM button guards its handler with the
`isLoading` flag, so any burst of activations with no intervening completion
yields at most one capture call; the direct-DOM fallback has no such flag
and is protected only by `pointer-events: none`, which bounds the calls only
for bursts of pointer-initiated activations (non-pointer activations can
still re-enter, as the counterexample shows). -/
theorem spec_c9_busy_guards (evs : List ButtonEvent)
    (hact : ∀ e ∈ evs, e ≠ ButtonEvent.complete) :
    (shadowRun evs ShadowButtonState.init).captureCalls ≤ 1
    ∧ ((∀ e ∈ evs, e = ButtonEvent.activate true) →
        (regularRun evs RegularButtonState.init).captureCalls ≤ 1) := by
  constructor
  · cases evs with
    | nil => decide
    | cons e es =>
        cases e with
        | activate b =>
            have hstep :
                shadowStep (ButtonEvent.activate b) ShadowButtonState.init
                  = { isLoading := true, captureCalls := 1 } := rfl
            simp only [shadowRun, hstep]
            rw [shadowRun_loading es _ rfl
              (fun x hx => hact x (List.mem_cons_of_mem _ hx))]
        | complete => exact absurd rfl (hact _ (List.mem_cons_self _ _))
  · intro hp
    cases evs with
    | nil => decide
    | cons e es =>
        have he := hp e (List.mem_cons_self e es)
        subst he
        have hstep :
            regularStep (ButtonEvent.activate true) RegularButtonState.init
              = { pointerEventsOff := true, captureCalls := 1 } := rfl
        simp only [regularRun, hstep]
        rw [regularRun_pointerOff es _ rfl
          (fun x hx => hp x (List.mem_cons_of_mem _ hx))]

/-- C9 witness: a double activation burst with no completion in between
satisfies the hypotheses, and both bounds evaluate. -/
theorem spec_c9_witness :
    (∀ e ∈ [ButtonEvent.activate true, ButtonEvent.activate true],
        e ≠ ButtonEvent.complete)
    ∧ (shadowRun [ButtonEvent.activate true, ButtonEvent.activate true]
        ShadowButtonState.init).captureCalls ≤ 1
    ∧ ((∀ e ∈ [ButtonEvent.activate true, ButtonEvent.activate true],
          e = ButtonEvent.activate true) →
        (regularRun [ButtonEvent.activate true, ButtonEvent.activate true]
          RegularButtonState.init).captureCalls ≤ 1) :=
  ⟨by decide,
    (spec_c9_busy_guards [ButtonEvent.activate true, ButtonEvent.activate true]
      (by decide)).1,
    (spec_c9_busy_guards [ButtonEvent.activate true, ButtonEvent.activate true]
      (by decide)).2⟩

theorem nodeStep_stable (e : NEvent) (s : NState)
    (hs : stableReady s) (ho : e.obs.isComplete = true) :
    stableReady (nodeStep e s) ∧ (nodeStep e s).prepareCount = s.prepareCount := by
  obtain ⟨hp, hc, hr⟩ := hs
  cases e with
  | scan o =>
      have hf := renderCaptureButtonN_fields o s
      have hstep : nodeStep (NEvent.scan o) s = renderCaptureButtonN o s := by
        simp [nodeStep, processNewMessageN, processMessageN, hp, hr]
      rw [hstep]
      refine ⟨⟨?_, ?_, ?_⟩, hf.2.2.2⟩
      · rw [hf.1, hp]
      · rw [hf.2.1, hc]
      · rw [hf.2.2.1, hr]
  | charData o =>
      simp only [NEvent.obs] at ho
      have hstep : nodeStep (NEvent.charData o) s
          = { s with completeAttr := some o.isComplete } := by
        simp [nodeStep, handleStreamingUpdateN, hc, ho]
      rw [hstep]
      exact ⟨⟨hp, by rw [ho], hr⟩, rfl⟩
  | attrMut o =>
      simp only [NEvent.obs] at ho
      have hstep : nodeStep (NEvent.attrMut o) s
          = { s with completeAttr := some o.isComplete } := by
        simp [nodeStep, handleMessageUpdateN, hc, ho]
      rw [hstep]
      exact ⟨⟨hp, by rw [ho], hr⟩, rfl⟩

/-- C1 counterexample: the claim says that once a node is capture-ready, no
later mutation event re-triggers the capture handoff.  But the completion
guard is only the `data-contexus-complete` edge detector: a scan makes the
node capture-ready (one `prepareMessageForCapture`), an attribute mutation
that observes the node as incomplete again (a loading indicator reappears)
resets the attribute, and the next mutation that observes it complete runs
`prepareMessageForCapture` a second time — two snapshots for one node. -/
theorem spec_c1_counterexample :
    (nodeRun [NEvent.scan obsDone30] NState.init).captureReady = true
    ∧ (nodeRun [NEvent.scan obsDone30, NEvent.attrMut obsIncomplete30,
        NEvent.attrMut obsDone30] NState.init).prepareCount = 2 := by
  decide

/-- C1 amended: re-discovery in a scan after a node is capture-ready is
always a no-op (the `processedMessages` guard short-circuits), and
character-data or attribute mutations do not re-trigger the capture handoff
as long as each of them still observes the message as complete: for any node
that is processed, marked complete and capture-ready, any sequence of such
events leaves the number of `prepareMessageForCapture` calls unchanged.  (If
a mutation observes the message as incomplete again, the handoff can
re-trigger — see the counterexample.) -/
theorem spec_c1_no_retrigger (evs : List NEvent) (s : NState)
    (hs : stableReady s) (hobs : ∀ e ∈ evs, e.obs.isComplete = true) :
    (nodeRun evs s).prepareCount = s.prepareCount := by
  have main : ∀ (l : List NEvent), (∀ e ∈ l, e.obs.isComplete = true) →
      ∀ s1 : NState, stableReady s1 → (nodeRun l s1).prepareCount = s1.prepareCount := by
    intro l
    induction l with
    | nil => intro _ s1 _; rfl
    | cons e es ih =>
        intro hl s1 hs1
        have h1 := nodeStep_stable e s1 hs1 (hl e (List.mem_cons_self e es))
        show (nodeRun es (nodeStep e s1)).prepareCount = s1.prepareCount
        rw [ih (fun x hx => hl x (List.mem_cons_of_mem e hx)) _ h1.1, h1.2]
  exact main evs hobs s hs

/-- C1 witness: a capture-ready node hit by an attribute mutation, a
character-data mutation and a re-scan, all observing it complete, keeps its
single snapshot. -/
theorem spec_c1_witness :
    stableReady readyNState
    ∧ (∀ e ∈ [NEvent.attrMut obsDone30, NEvent.charData obsDone30, NEvent.scan obsDone30],
        e.obs.isComplete = true)
    ∧ (nodeRun [NEvent.attrMut obsDone30, NEvent.charData obsDone30, NEvent.scan obsDone30]
        readyNState).prepareCount = readyNState.prepareCount :=
  ⟨⟨rfl, rfl, rfl⟩, by decide,
    spec_c1_no_retrigger
      [NEvent.attrMut obsDone30, NEvent.charData obsDone30, NEvent.scan obsDone30]
      readyNState ⟨rfl, rfl, rfl⟩ (by decide)⟩

/-- C6 counterexample: the generic adapter has no custom completion rule and
declares a loading-indicator selector, yet a message whose subtree contains a
matching indicator is still judged complete, because the non-streaming
short-circuit (`hasStreamingResponse = false` for the generic profile) runs
before the indicator probe.  The claim's "complete exactly when no
loading-indicator element is present" is therefore false for this adapter
and element. -/
theorem spec_c6_counterexample :
    genericAdapter.config.isMessageComplete = none
    ∧ genericAdapter.selectors.loadingIndicator = some genericLoadingSel
    ∧ (elemWithSpinner.query genericLoadingSel).isSome = true
    ∧ isMessageComplete elemWithSpinner genericAdapter = .ok true :=
  ⟨rfl, rfl, rfl, rfl⟩

/-- C6 amended: for an adapter with no custom completion rule, a
non-streaming profile makes every element complete regardless of indicators,
and a streaming profile judges an element complete exactly when no
loading-indicator element is present in its subtree AND its extracted text is
at least 3 characters long (empty or very short text counts as still
loading). -/
theorem spec_c6_default_completion (adapter : PlatformAdapter) (element : Elem) (t : String)
    (hrule : adapter.config.isMessageComplete = none)
    (hext : extractMessageText element adapter = .ok t) :
    (adapter.config.hasStreamingResponse = false →
        isMessageComplete element adapter = .ok true)
    ∧ (adapter.config.hasStreamingResponse = true →
        isMessageComplete element adapter
          = .ok (loadingIndicatorAbsent adapter element && !decide (t.length < 3))) := by
  constructor
  · intro h
    exact isMessageComplete_nonStreaming adapter element hrule h
  · intro h
    unfold isMessageComplete loadingIndicatorAbsent
    rw [hrule, h]
    cases hli : adapter.selectors.loadingIndicator with
    | none =>
        rw [hext]
        simp
    | some sel =>
        cases hq : element.query sel with
        | none =>
            rw [hext]
            simp [hq]
        | some x =>
            simp [hq]

/-- C6 witness: the generic adapter with the spinner element instantiates
both branches (the non-streaming one applies, since the generic profile does
not stream). -/
theorem spec_c6_witness :
    genericAdapter.config.isMessageComplete = none
    ∧ extractMessageText elemWithSpinner genericAdapter = .ok (jsTrim spinnerText)
    ∧ ((genericAdapter.config.hasStreamingResponse = false →
          isMessageComplete elemWithSpinner genericAdapter = .ok true)
        ∧ (genericAdapter.config.hasStreamingResponse = true →
          isMessageComplete elemWithSpinner genericAdapter
            = .ok (loadingIndicatorAbsent genericAdapter elemWithSpinner
                && !decide ((jsTrim spinnerText).length < 3)))) :=
  ⟨rfl, rfl,
    spec_c6_default_completion genericAdapter elemWithSpinner (jsTrim spinnerText) rfl rfl⟩

/-- C7: with a non-streaming profile (and the default completion rule),
every message element present at observation start whose extracted text
exceeds the 20-character capture threshold is marked capture-ready by the
initial scan, with exactly one `prepareMessageForCapture` event for it. -/
theorem spec_c7_initial_scan (adapter : PlatformAdapter) (existing : List Elem)
    (e : Elem) (t : String)
    (hstream : adapter.config.hasStreamingResponse = false)
    (hrule : adapter.config.isMessageComplete = none)
    (hmem : e ∈ existing)
    (hpw : existing.Pairwise (fun x y => x.id ≠ y.id))
    (hext : extractMessageText e adapter = .ok t)
    (hlen : t.length > 20) :
    ((processExistingMessages adapter existing Store.empty) e.id).captureReady = true
    ∧ ((processExistingMessages adapter existing Store.empty) e.id).prepareCount = 1 := by
  have hfold := foldl_upd_mem (processNewMessageE adapter) existing Store.empty e hmem hpw
  have hcomp := isMessageComplete_nonStreaming adapter e hrule hstream
  have hd : decide (t.length > 20) = true := decide_eq_true hlen
  have hproc : processNewMessageE adapter e (Store.empty e.id)
      = renderCaptureButtonE adapter e
          { processed := true, completeAttr := some true, captureReady := true,
            buttonPresent := false, prepareCount := 1 } := by
    simp [processNewMessageE, processMessageE, Store.empty, NState.init, hext, hcomp, hd]
  unfold processExistingMessages
  rw [hfold, hproc]
  have hf := renderCaptureButtonE_fields adapter e
    { processed := true, completeAttr := some true, captureReady := true,
      buttonPresent := false, prepareCount := 1 }
  exact ⟨hf.2.2.1, hf.2.2.2⟩

/-- C7 witness: the generic (static, non-streaming) profile, one
pre-existing 50-character turn at scan time: the scan makes it capture-ready
with exactly one prepare event. -/
theorem spec_c7_witness :
    genericAdapter.config.hasStreamingResponse = false
    ∧ genericAdapter.config.isMessageComplete = none
    ∧ scanElem ∈ [scanElem]
    ∧ extractMessageText scanElem genericAdapter = .ok scanText
    ∧ scanText.length > 20
    ∧ ((processExistingMessages genericAdapter [scanElem] Store.empty)
        scanElem.id).captureReady = true
    ∧ ((processExistingMessages genericAdapter [scanElem] Store.empty)
        scanElem.id).prepareCount = 1 :=
  ⟨rfl, rfl, List.mem_singleton.mpr rfl, rfl, by decide,
    (spec_c7_initial_scan genericAdapter [scanElem] scanElem scanText rfl rfl
      (List.mem_singleton.mpr rfl) (by simp) rfl (by decide)).1,
    (spec_c7_initial_scan genericAdapter [scanElem] scanElem scanText rfl rfl
      (List.mem_singleton.mpr rfl) (by simp) rfl (by decide)).2⟩

theorem specPattern_eq_of_ne_star (url p : String) (h : ¬ p = starPattern) :
    specPatternMatches url p = patternMatchesUrl url p := by
  unfold specPatternMatches patternMatchesUrl
  rw [if_neg h, if_neg h]

theorem any_spec_eq_code (url : String) (pats : List String)
    (h : ∀ p ∈ pats, ¬ p = starPattern) :
    (pats.any fun p => specPatternMatches url p)
      = (pats.any fun p => patternMatchesUrl url p) := by
  induction pats with
  | nil => rfl
  | cons p ps ih =>
      simp only [List.any_cons]
      rw [specPattern_eq_of_ne_star url p (h p (List.mem_cons_self p ps)),
        ih (fun q hq => h q (List.mem_cons_of_mem p hq))]

/-- C5: for every URL, `getCurrentAdapter` coincides with the spec's
resolver — iterate the profiles in declaration order (OpenAI, Gemini,
Claude, generic), return the first whose URL matchers match, and return the
generic profile when none match (the code realises "generic is matched
last" by skipping the `'*'` pattern in the scan and falling back to
`genericAdapter`; both give the generic profile).  The resolver is a pure
function of the URL, so resolving the same URL repeatedly yields the same
profile. -/
theorem spec_c5_resolver (currentUrl : String) :
    getCurrentAdapter currentUrl = resolveProfileSpec currentUrl := by
  have hoai := any_spec_eq_code currentUrl openaiAdapter.urlPatterns (by decide)
  have hgem := any_spec_eq_code currentUrl geminiAdapter.urlPatterns (by decide)
  have hcla := any_spec_eq_code currentUrl claudeAdapter.urlPatterns (by decide)
  have hgenSpec :
      (genericAdapter.urlPatterns.any fun p => specPatternMatches currentUrl p) = true := by
    simp [genericAdapter, specPatternMatches, starPattern]
  have hgenCode :
      (genericAdapter.urlPatterns.any fun p => patternMatchesUrl currentUrl p) = false := by
    simp [genericAdapter, patternMatchesUrl, starPattern]
  unfold getCurrentAdapter resolveProfileSpec
  rw [show platformAdapters
      = openaiAdapter :: geminiAdapter :: claudeAdapter :: genericAdapter :: [] from rfl]
  cases h1 : (openaiAdapter.urlPatterns.any fun p => patternMatchesUrl currentUrl p) with
  | true =>
      have hs1 := hoai.trans h1
      simp only [List.find?, h1, hs1]
  | false =>
      have hs1 := hoai.trans h1
      cases h2 : (geminiAdapter.urlPatterns.any fun p => patternMatchesUrl currentUrl p) with
      | true =>
          have hs2 := hgem.trans h2
          simp only [List.find?, h1, hs1, h2, hs2]
      | false =>
          have hs2 := hgem.trans h2
          cases h3 : (claudeAdapter.urlPatterns.any fun p => patternMatchesUrl currentUrl p) with
          | true =>
              have hs3 := hcla.trans h3
              simp only [List.find?, h1, hs1, h2, hs2, h3, hs3]
          | false =>
              have hs3 := hcla.trans h3
              simp only [List.find?, h1, hs1, h2, hs2, h3, hs3, hgenCode, hgenSpec]

/-- C8 counterexample: `handleMutations` is not wrapped.  A batch whose first
record is a character-data mutation on a malformed message (its extraction
throws inside `handleStreamingUpdate`, which has no `try`/`catch`) escapes
uncaught from the mutation callback, and the healthy message added by the
second record of the same batch is never processed. -/
theorem spec_c8_counterexample :
    exceptIsOk (handleMutationsE throwAdapter c8BadBatch Store.empty) = false
    ∧ ((exceptStore (handleMutationsE throwAdapter c8BadBatch Store.empty)) 7).processed
        = false := by
  decide

/-- C8 amended: only the added-node path is guarded — `processMessage` wraps
its body in `try`/`catch` (and throws there occur before any state change),
so a batch of added-node records never lets an exception escape and one
malformed added node does not affect the others; the character-data and
attribute handlers are not wrapped, so exceptions there propagate out of the
callback (see the counterexample). -/
theorem spec_c8_exception_paths (adapter : PlatformAdapter) (st : Store)
    (ms : List MutationRecord) (hms : ∀ m ∈ ms, mutationIsChildList m = true) :
    exceptIsOk (handleMutationsE adapter ms st) = true
    ∧ ∀ (e : Elem) (s : NState), extractMessageText e adapter = .error () →
        processMessageE adapter e s = (s, s.processed) := by
  constructor
  · have main : ∀ (l : List MutationRecord), (∀ m ∈ l, mutationIsChildList m = true) →
        ∀ st1 : Store, exceptIsOk (handleMutationsE adapter l st1) = true := by
      intro l
      induction l with
      | nil => intro _ st1; rfl
      | cons m rest ih =>
          intro hl st1
          cases m with
          | childList ns =>
              simp only [handleMutationsE, handleMutationRec]
              exact ih (fun x hx => hl x (List.mem_cons_of_mem _ hx)) _
          | characterData t =>
              have hbad := hl (MutationRecord.characterData t) (List.mem_cons_self _ _)
              simp [mutationIsChildList] at hbad
          | attrChange t =>
              have hbad := hl (MutationRecord.attrChange t) (List.mem_cons_self _ _)
              simp [mutationIsChildList] at hbad
    exact main ms hms st
  · intro e s herr
    unfold processMessageE
    cases hp : s.processed with
    | true => simp [hp]
    | false => simp [hp, herr]

/-- C8 witness: a batch of one added healthy message satisfies the
added-only hypothesis and completes without an uncaught throw. -/
theorem spec_c8_witness :
    (∀ m ∈ c8GoodBatch, mutationIsChildList m = true)
    ∧ exceptIsOk (handleMutationsE genericAdapter c8GoodBatch Store.empty) = true :=
  ⟨by decide,
    (spec_c8_exception_paths genericAdapter Store.empty c8GoodBatch (by decide)).1⟩

/-- C10: extraction is total — for every element, each registry adapter's
`extractMessageText` returns a string (never null, never a throw); and for an
adapter with no custom extractor whose `messageContent` selector matches no
descendant of the element, the result is exactly the element's own trimmed
`textContent` (the empty string when there is none), with the
whitespace-collapsing and action-button-label stripping of the
selector-matched path not applied. -/
theorem spec_c10_total_extraction (a b : PlatformAdapter) (e f : Elem)
    (ha : a ∈ platformAdapters)
    (hb : b.config.extractMessageText = none)
    (hq : f.query b.selectors.messageContent = none) :
    (∃ s, extractMessageText e a = .ok s)
    ∧ extractMessageText f b = .ok (jsTrimOpt f.textContent) := by
  constructor
  · simp only [platformAdapters, List.mem_cons, List.not_mem_nil, or_false] at ha
    rcases ha with rfl | rfl | rfl | rfl
    · exact ⟨_, rfl⟩
    · exact ⟨_, rfl⟩
    · exact ⟨_, rfl⟩
    · exact ⟨_, rfl⟩
  · unfold extractMessageText
    rw [hb]
    simp [hq]

/-- C10 witness: the generic registry adapter for totality, and the
custom-extractor-free variant of it with a selector-less element for the
fallback path (its padded text content comes back trimmed but not
normalized). -/
theorem spec_c10_witness :
    genericAdapter ∈ platformAdapters
    ∧ plainAdapter.config.extractMessageText = none
    ∧ fallbackElem.query plainAdapter.selectors.messageContent = none
    ∧ (∃ s, extractMessageText fallbackElem genericAdapter = .ok s)
    ∧ extractMessageText fallbackElem plainAdapter = .ok (jsTrimOpt fallbackElem.textContent) := by
  have h := spec_c10_total_extraction genericAdapter plainAdapter fallbackElem fallbackElem
    (by simp [platformAdapters]) rfl rfl
  exact ⟨by simp [platformAdapters], rfl, rfl, h.1, h.2⟩
